import Mathlib

/-!
# Verification of the RadioFM MCP server (`src/dist/index.js`)

Shallow embedding of the protocol-bridge layer of the RadioFM MCP server.
The authority is `src/dist/index.js` (the more complete variant, which the
spec follows).  JavaScript values that the code actually manipulates are
modelled explicitly:

* An optional string field of a loosely-typed record is `Option String`;
  `none` models an absent field (JS `undefined`).
* JS truthiness on such a value: `undefined` and `""` are falsy, every other
  string is truthy (`jsTruthy`).
* Interpolating such a value into a template literal renders `undefined` as
  the literal text `"undefined"` (`render`).
* `group.type.toUpperCase()` throws a `TypeError` when `type` is absent;
  exception-throwing code is modelled with `Except String`.
* JS `toUpperCase` is modelled by `jsToUpperCase` (ASCII case mapping; no
  claim depends on the mapping of non-ASCII letters).
* `data.data?.Data ?? []` collapses the two optional levels into a single
  `Option` field `Data`; `none` covers both `data.data` absent and `Data`
  absent, either of which yields `[]` in the source.
-/

/-- One search-result item of the upstream response.  All fields are
optional, loosely-typed records (`undefined` when absent). -/
structure Item where
  st_name : Option String
  p_name : Option String
  st_genre : Option String
  cat_name : Option String
  deeplink : Option String
  st_shorturl : Option String
deriving DecidableEq, Repr

/-- One result group of the upstream response: `{type, data}`.  Both fields
may be absent. -/
structure ResultGroup where
  type : Option String
  data : Option (List Item)
deriving DecidableEq, Repr

/-- The upstream search envelope.  `Data` models `data.data?.Data`; `none`
covers absence at either level (the source then uses `[]`). -/
structure UpstreamResponse where
  Data : Option (List ResultGroup)
deriving DecidableEq, Repr

/-- JS truthiness of an optional string: `undefined` and `""` are falsy. -/
def jsTruthy : Option String → Bool
  | none => false
  | some s => !(s == "")

/-- JS `a || b` on two optional strings: the first truthy operand, else the
second operand unchanged. -/
def jsOr (a b : Option String) : Option String :=
  if jsTruthy a then a else b

/-- Template-literal rendering of an optional string: JS stringifies
`undefined` as the text `"undefined"`. -/
def render : Option String → String
  | none => "undefined"
  | some s => s

/-- `item.st_name || item.p_name`, rendered (source line
`const name = item.st_name || item.p_name;` interpolated into the entry). -/
def itemName (it : Item) : String :=
  render (jsOr it.st_name it.p_name)

/-- `item.st_genre || item.cat_name`, rendered. -/
def itemGenre (it : Item) : String :=
  render (jsOr it.st_genre it.cat_name)

/-- `item.deeplink || `https://appradiofm.com/radioplay/${item.st_shorturl}``:
the right operand is a template literal, hence always a string. -/
def itemLink (it : Item) : String :=
  if jsTruthy it.deeplink then render it.deeplink
  else "https://appradiofm.com/radioplay/" ++ render it.st_shorturl

/-- JS `String.prototype.toUpperCase`, modelled as ASCII uppercasing of the
underlying character list (extensionally `String.toUpper`, written over
`String.data` so that it reduces definitionally). -/
def jsToUpperCase (s : String) : String :=
  String.mk (s.data.map Char.toUpper)

/-- The entry for item `it` at zero-based position `i` of its group:
`${i + 1}. ${name} (${genre})\n▶ ${link}`. -/
def formatItem (i : Nat) (it : Item) : String :=
  toString (i + 1) ++ ". " ++ itemName it ++ " (" ++ itemGenre it ++ ")\n▶ " ++ itemLink it

/-- `(group.data || []).map((item, i) => ...)` : the entries of one group,
`i` counting from `n` (the source starts each group at `0`). -/
def formatItems : Nat → List Item → List String
  | _, [] => []
  | i, it :: rest => formatItem i it :: formatItems (i + 1) rest

/-- One group block: `\n🎧 ${type}\n${list}` where
`type = group.type.toUpperCase()` — this THROWS a `TypeError` when
`group.type` is absent, and `list` joins the entries with `"\n"`. -/
def formatGroup (g : ResultGroup) : Except String String :=
  match g.type with
  | none => Except.error "TypeError: Cannot read properties of undefined (reading toUpperCase)"
  | some t =>
      Except.ok ("\n🎧 " ++ jsToUpperCase t ++ "\n" ++
        String.intercalate "\n" (formatItems 0 (g.data.getD [])))

/-- `results.map(group => ...)` with JS exception semantics: groups are
formatted left to right and the first thrown exception aborts the map. -/
def formatBlocks : List ResultGroup → Except String (List String)
  | [] => Except.ok []
  | g :: rest =>
      match formatGroup g with
      | Except.error e => Except.error e
      | Except.ok b =>
          match formatBlocks rest with
          | Except.error e => Except.error e
          | Except.ok bs => Except.ok (b :: bs)

/-- One entry of a tool result's `content` array. -/
structure ContentEntry where
  type : String
  text : String
deriving DecidableEq, Repr

/-- A tool-invocation result: `{content: [...]}`. -/
structure ToolResult where
  content : List ContentEntry
deriving DecidableEq, Repr

/-- The fixed no-results sentence of `callTool`, embedding the query. -/
def noResultsText (q : String) : String :=
  "🔍 No results found for \"" ++ q ++ "\". Try different station names, countries, or genres."

/-- `callTool(query)` of `src/dist/index.js`.  `query` is
`params?.arguments?.query` (absent modelled as `none`); the upstream
`axios.get` is modelled by its outcome `upstream` (a network error with its
message, or the parsed response).  Thrown exceptions are `Except.error`:
the missing-query throw, a network error, and the formatter's `TypeError`
on an absent group `type` all propagate to the caller. -/
def callTool (query : Option String) (upstream : Except String UpstreamResponse) :
    Except String ToolResult :=
  if jsTruthy query then
    match upstream with
    | Except.error e => Except.error e
    | Except.ok resp =>
        let q := render query
        let results := resp.Data.getD []
        if results.isEmpty then
          Except.ok ⟨[⟨"text", noResultsText q⟩]⟩
        else
          match formatBlocks results with
          | Except.error e => Except.error e
          | Except.ok blocks =>
              Except.ok ⟨[⟨"text",
                "🔍 Results for \"" ++ q ++ "\":\n" ++ String.intercalate "\n" blocks⟩]⟩
  else Except.error "Missing query term."

/-- A tool descriptor as produced by `listTools`. -/
structure ToolDescriptor where
  name : String
  description : String
  schemaPropertyName : String
  schemaRequired : List String
deriving DecidableEq, Repr

/-- `listTools()` of `src/dist/index.js`: the single registered tool. -/
def listTools : List ToolDescriptor :=
  [⟨"search_radio_stations",
    "Search for radio stations and podcasts on RadioFM by name, language, country, or genre.",
    "query", ["query"]⟩]

/-- An inbound JSON-RPC request body as destructured by the POST `/mcp`
handler: `const { method, id, params } = req.body`.  Only the fields the
handler can reach are modelled; `toolName` is `params?.name` (never read by
the code), `query` is `params?.arguments?.query`, `protocolVersion` is
`params?.protocolVersion` (never read in `src/dist/index.js`). -/
structure RpcRequest where
  method : Option String
  id : Option Nat
  toolName : Option String
  query : Option String
  protocolVersion : Option String
deriving DecidableEq, Repr

/-- A successful JSON-RPC `result` value of the POST handler. -/
inductive RpcResult where
  | initResult (protocolVersion : String) (capabilitiesTools : Bool)
      (serverName serverVersion : String)
  | toolsList (tools : List ToolDescriptor)
  | toolResult (r : ToolResult)
deriving DecidableEq, Repr

/-- A JSON-RPC response body: `{jsonrpc, id, result}` or
`{jsonrpc, id, error: {code, message}}`. -/
inductive RpcBody where
  | success (id : Option Nat) (result : RpcResult)
  | failure (id : Option Nat) (code : Int) (message : String)
deriving DecidableEq, Repr

/-- The POST `/mcp` handler of `src/dist/index.js`: dispatch on `method`,
returning the HTTP status and the JSON body.  `res.json` without an
explicit status is status 200; the unknown-method branch uses status 400;
the catch-all converts any exception thrown inside the `try` (only the
`tools/call` branch can throw) into status 500 with code `-32000` and
message `err.message || "Internal error"`.  The handler is a total
function: every request produces exactly one response and the process keeps
serving. -/
def handlePost (req : RpcRequest) (upstream : Except String UpstreamResponse) :
    Nat × RpcBody :=
  if req.method = some "initialize" then
    (200, RpcBody.success req.id
      (RpcResult.initResult "2025-06-18" true "radiofm-mcp-server" "1.3.0"))
  else if req.method = some "tools/list" then
    (200, RpcBody.success req.id (RpcResult.toolsList listTools))
  else if req.method = some "tools/call" then
    match callTool req.query upstream with
    | Except.ok r => (200, RpcBody.success req.id (RpcResult.toolResult r))
    | Except.error m =>
        (500, RpcBody.failure req.id (-32000) (if m = "" then "Internal error" else m))
  else
    (400, RpcBody.failure req.id (-32601) ("Unknown method: " ++ render req.method))

/-- The block the source produces for a group whose `type` is present:
`\n🎧 ${type.toUpperCase()}\n${list}`. -/
def blockOf (g : ResultGroup) : String :=
  "\n🎧 " ++ jsToUpperCase (g.type.getD "") ++ "\n" ++
    String.intercalate "\n" (formatItems 0 (g.data.getD []))


/-! ## Helper lemmas -/

theorem formatItems_length (n : Nat) (items : List Item) :
    (formatItems n items).length = items.length := by
  induction items generalizing n with
  | nil => rfl
  | cons it rest ih => simp [formatItems, ih]

theorem formatItems_numbering (items : List Item) (n k : Nat) (s : String)
    (h : (formatItems n items).get? k = some s) :
    ∃ r, s = toString (n + k + 1) ++ ". " ++ r := by
  induction items generalizing n k with
  | nil => simp [formatItems] at h
  | cons it rest ih =>
    cases k with
    | zero =>
      simp only [formatItems, List.get?] at h
      refine ⟨itemName it ++ " (" ++ itemGenre it ++ ")\n▶ " ++ itemLink it, ?_⟩
      rw [← Option.some_inj.mp h]
      simp [formatItem, String.append_assoc]
    | succ k =>
      simp only [formatItems, List.get?] at h
      obtain ⟨r, hr⟩ := ih (n + 1) k h
      refine ⟨r, ?_⟩
      rw [show n + (k + 1) + 1 = n + 1 + k + 1 by omega]
      exact hr

theorem blockOf_header (g : ResultGroup) : ∃ r, blockOf g = "\n🎧 " ++ r := by
  refine ⟨jsToUpperCase (g.type.getD "") ++ ("\n" ++
    String.intercalate "\n" (formatItems 0 (g.data.getD []))), ?_⟩
  simp [blockOf, String.append_assoc]

theorem formatBlocks_ok (gs : List ResultGroup) (h : ∀ g ∈ gs, g.type ≠ none) :
    formatBlocks gs = Except.ok (gs.map blockOf) := by
  induction gs with
  | nil => rfl
  | cons g rest ih =>
    obtain ⟨t, ht⟩ := Option.ne_none_iff_exists'.mp (h g (List.mem_cons_self g rest))
    rw [List.map_cons]
    rw [formatBlocks, formatGroup, ht, ih (fun x hx => h x (List.mem_cons_of_mem g hx))]
    simp [blockOf, ht]

/-! ## Claims -/

/-- C1: the spec requires the result-formatting step of `tools/call` to be
total, yet the code evaluates `group.type.toUpperCase()` without a guard:
on an upstream response containing a group whose `type` field is absent,
formatting throws a `TypeError` instead of returning a string.  This
theorem evaluates `callTool` at that failing input. -/
theorem c1_formatting_throws_on_absent_group_type :
    callTool (some "BBC") (Except.ok ⟨some [⟨none, none⟩]⟩) =
      Except.error "TypeError: Cannot read properties of undefined (reading toUpperCase)" :=
  rfl

/-- C2 counterexample: on an item with every optional field absent, the
rendered display name and category are the literal text `"undefined"`
(JS template-literal stringification of `undefined`), not the empty
string, and the rendered link is the base URL with `"undefined"`
interpolated — refuting the claim's `else the empty string` clauses. -/
theorem c2_counterexample_absent_fields_render_undefined :
    itemName ⟨none, none, none, none, none, none⟩ = "undefined" ∧
    itemGenre ⟨none, none, none, none, none, none⟩ = "undefined" ∧
    itemLink ⟨none, none, none, none, none, none⟩ =
      "https://appradiofm.com/radioplay/undefined" ∧
    ("undefined" : String) ≠ "" :=
  ⟨rfl, rfl, rfl, by decide⟩

/-- C2 amended: the fallback chains hold as claimed while a truthy field is
available (station name else podcast name; station genre else category
name; deeplink else base-URL-plus-short-url), but when the whole chain is
exhausted the rendered segment is the value of the chain's last field:
the literal text `"undefined"` when that field is absent (it is the empty
string only when the field is present and empty); the rendered link is the
base URL with the short-url segment interpolated (`"undefined"` when
absent) and is never the empty string. -/
theorem c2_fallback_chains_render_undefined_not_empty (it : Item) :
    (∀ s, it.st_name = some s → s ≠ "" → itemName it = s) ∧
    ((it.st_name = none ∨ it.st_name = some "") →
      (∀ p, it.p_name = some p → p ≠ "" → itemName it = p) ∧
      (it.p_name = none → itemName it = "undefined") ∧
      (it.p_name = some "" → itemName it = "")) ∧
    (∀ s, it.st_genre = some s → s ≠ "" → itemGenre it = s) ∧
    ((it.st_genre = none ∨ it.st_genre = some "") →
      (∀ c, it.cat_name = some c → c ≠ "" → itemGenre it = c) ∧
      (it.cat_name = none → itemGenre it = "undefined") ∧
      (it.cat_name = some "" → itemGenre it = "")) ∧
    (∀ d, it.deeplink = some d → d ≠ "" → itemLink it = d) ∧
    ((it.deeplink = none ∨ it.deeplink = some "") →
      itemLink it = "https://appradiofm.com/radioplay/" ++ render it.st_shorturl ∧
      itemLink it ≠ "") := by
  have first : ∀ (a b : Option String) (s : String), a = some s → s ≠ "" →
      render (jsOr a b) = s := by
    intro a b s ha hs
    subst ha
    simp [jsOr, jsTruthy, render, hs]
  have fallb : ∀ (a b : Option String), (a = none ∨ a = some "") → jsOr a b = b := by
    intro a b hab
    rcases hab with rfl | rfl <;> simp [jsOr, jsTruthy]
  refine ⟨fun s hs hne => first _ _ s hs hne,
    fun ha => ⟨fun p hp hpne => ?_, fun hb => ?_, fun hb => ?_⟩,
    fun s hs hne => first _ _ s hs hne,
    fun ha => ⟨fun c hc hcne => ?_, fun hb => ?_, fun hb => ?_⟩,
    fun d hd hdne => ?_, fun ha => ⟨?_, ?_⟩⟩
  · rw [itemName, fallb _ _ ha, hp]
    simp [render]
  · rw [itemName, fallb _ _ ha, hb]; rfl
  · rw [itemName, fallb _ _ ha, hb]; rfl
  · rw [itemGenre, fallb _ _ ha, hc]
    simp [render]
  · rw [itemGenre, fallb _ _ ha, hb]; rfl
  · rw [itemGenre, fallb _ _ ha, hb]; rfl
  · rw [itemLink, hd]
    simp [jsTruthy, render, hdne]
  · rw [itemLink]
    rcases ha with ha | ha <;> rw [ha] <;> simp [jsTruthy]
  · rw [itemLink]
    have hfalse : jsTruthy it.deeplink = false := by
      rcases ha with ha | ha <;> rw [ha] <;> rfl
    rw [hfalse]
    simp only [Bool.false_eq_true, if_false]
    intro hcontra
    have hlen := congrArg String.length hcontra
    rw [String.length_append] at hlen
    exact absurd (Nat.eq_zero_of_add_eq_zero_right hlen) (by decide)

/-- C2 witness: the amended fallback chains evaluated on the concrete item
`{st_name: "BBC Radio 1", st_genre: "Pop", st_shorturl: "bbc1"}`. -/
theorem c2_fallback_chains_witness :
    itemName ⟨some "BBC Radio 1", none, some "Pop", none, none, some "bbc1"⟩ = "BBC Radio 1" ∧
    itemLink ⟨some "BBC Radio 1", none, some "Pop", none, none, some "bbc1"⟩ =
      "https://appradiofm.com/radioplay/bbc1" := by
  have h := c2_fallback_chains_render_undefined_not_empty
    ⟨some "BBC Radio 1", none, some "Pop", none, none, some "bbc1"⟩
  exact ⟨h.1 "BBC Radio 1" rfl (by decide), (h.2.2.2.2.2 (Or.inl rfl)).1⟩

/-- C3 counterexample: a `tools/call` POST with a missing query is answered
with error code `-32000` — the very same generic internal-error code the
catch-all also uses for an upstream network failure — so the error class is
NOT distinct from the generic internal-error code as the claim requires. -/
theorem c3_counterexample_missing_query_uses_generic_code :
    handlePost ⟨some "tools/call", some 1, none, none, none⟩ (Except.ok ⟨none⟩) =
      (500, RpcBody.failure (some 1) (-32000) "Missing query term.") ∧
    handlePost ⟨some "tools/call", some 2, none, some "BBC", none⟩
        (Except.error "getaddrinfo ENOTFOUND devappradiofm.radiofm.co") =
      (500, RpcBody.failure (some 2) (-32000) "getaddrinfo ENOTFOUND devappradiofm.radiofm.co") :=
  ⟨rfl, rfl⟩

/-- C3 amended: for every `tools/call` POST whose `arguments.query` is
absent or the empty string, the bridge returns a structured JSON-RPC error
(so never an unhandled fault that terminates the connection: `handlePost`
is a total function), but its code is the generic internal-error code
`-32000` with message `"Missing query term."`, not a distinct
InvalidArgument class. -/
theorem c3_missing_query_structured_generic_error (id : Option Nat)
    (name pv : Option String) (q : Option String)
    (u : Except String UpstreamResponse) (h : q = none ∨ q = some "") :
    handlePost ⟨some "tools/call", id, name, q, pv⟩ u =
      (500, RpcBody.failure id (-32000) "Missing query term.") := by
  rcases h with rfl | rfl <;> rfl

/-- C3 witness: the amended statement evaluated at a concrete request with
an absent query. -/
theorem c3_missing_query_witness :
    handlePost ⟨some "tools/call", some 9, some "search_radio_stations", none, none⟩
        (Except.ok ⟨none⟩) =
      (500, RpcBody.failure (some 9) (-32000) "Missing query term.") :=
  c3_missing_query_structured_generic_error (some 9) (some "search_radio_stations") none none
    (Except.ok ⟨none⟩) (Or.inl rfl)

/-- C6: whenever `data.Data` is absent or the empty array, `tools/call`
succeeds with exactly one content entry of type `"text"` whose text is the
fixed no-results sentence embedding the original query verbatim. -/
theorem c6_empty_results_fixed_sentence (q : String) (hq : q ≠ "")
    (resp : UpstreamResponse) (h : resp.Data = none ∨ resp.Data = some []) :
    callTool (some q) (Except.ok resp) =
      Except.ok ⟨[⟨"text", "🔍 No results found for \"" ++ q ++
        "\". Try different station names, countries, or genres."⟩]⟩ := by
  have ht : jsTruthy (some q) = true := by simp [jsTruthy, hq]
  obtain ⟨d⟩ := resp
  rcases h with h | h <;> simp only at h <;> subst h <;>
    simp [callTool, ht, render, noResultsText]

/-- C6 witness: the empty-results path evaluated at query `"BBC"` and an
upstream response with `Data` absent. -/
theorem c6_empty_results_witness :
    callTool (some "BBC") (Except.ok ⟨none⟩) =
      Except.ok ⟨[⟨"text", "🔍 No results found for \"BBC\". Try different station names, countries, or genres."⟩]⟩ :=
  c6_empty_results_fixed_sentence "BBC" (by decide) ⟨none⟩ (Or.inl rfl)

/-- C7: every exception thrown while handling a `tools/call` POST (the
upstream network failure, the missing-query throw, the formatter TypeError
— any `Except.error` outcome of `callTool`) is caught by the handler and
converted into a JSON-RPC error with code `-32000` carrying the exception
message, at HTTP status 500; `handlePost` is a total function, so the
process keeps serving subsequent requests. -/
theorem c7_exceptions_become_internal_error (id : Option Nat)
    (name pv q : Option String) (u : Except String UpstreamResponse)
    (msg : String) (hc : callTool q u = Except.error msg) (hm : msg ≠ "") :
    handlePost ⟨some "tools/call", id, name, q, pv⟩ u =
      (500, RpcBody.failure id (-32000) msg) := by
  simp [handlePost, hc, hm]

/-- C7 witness: a concrete upstream network failure surfaced as
`{code: -32000, message: "socket hang up"}` with HTTP status 500. -/
theorem c7_network_error_witness :
    handlePost ⟨some "tools/call", some 3, none, some "BBC", none⟩
        (Except.error "socket hang up") =
      (500, RpcBody.failure (some 3) (-32000) "socket hang up") :=
  c7_exceptions_become_internal_error (some 3) none none (some "BBC")
    (Except.error "socket hang up") "socket hang up" rfl (by decide)

/-- C8: a POST whose method is none of `initialize`, `tools/list`,
`tools/call` is answered with a structured JSON-RPC error of code `-32601`
echoing the request id, at HTTP status 400 (non-2xx); `handlePost` returns
normally on this branch. -/
theorem c8_unknown_method_minus32601 (m : Option String) (id : Option Nat)
    (name q pv : Option String) (u : Except String UpstreamResponse)
    (h1 : m ≠ some "initialize") (h2 : m ≠ some "tools/list")
    (h3 : m ≠ some "tools/call") :
    handlePost ⟨m, id, name, q, pv⟩ u =
      (400, RpcBody.failure id (-32601) ("Unknown method: " ++ render m)) := by
  simp [handlePost, h1, h2, h3]

/-- C8 witness: the unknown method `resources/list` answered with code
`-32601`, status 400, the request id echoed. -/
theorem c8_unknown_method_witness :
    handlePost ⟨some "resources/list", some 4, none, none, none⟩ (Except.ok ⟨none⟩) =
      (400, RpcBody.failure (some 4) (-32601) "Unknown method: resources/list") :=
  c8_unknown_method_minus32601 (some "resources/list") (some 4) none none none
    (Except.ok ⟨none⟩) (by decide) (by decide) (by decide)

/-- C9: an `initialize` POST is answered with the fixed protocol version
`"2025-06-18"`, the tools capability and the fixed server info, whatever
the client-supplied `protocolVersion`, tool name, query or upstream state
— no part of the response depends on them. -/
theorem c9_initialize_reports_fixed_version (id : Option Nat)
    (name q pv name2 q2 pv2 : Option String)
    (u u2 : Except String UpstreamResponse) :
    handlePost ⟨some "initialize", id, name, q, pv⟩ u =
      (200, RpcBody.success id
        (RpcResult.initResult "2025-06-18" true "radiofm-mcp-server" "1.3.0")) ∧
    handlePost ⟨some "initialize", id, name, q, pv⟩ u =
      handlePost ⟨some "initialize", id, name2, q2, pv2⟩ u2 :=
  ⟨rfl, rfl⟩

/-- C10: the `tools/call` branch never inspects `params.name`: two requests
differing only in the tool name get identical responses, and the response
is exactly the wrapping of the single search operation `callTool` on the
query argument — there is no unknown-tool error path. -/
theorem c10_tool_name_never_inspected (id : Option Nat)
    (n1 n2 q pv : Option String) (u : Except String UpstreamResponse) :
    handlePost ⟨some "tools/call", id, n1, q, pv⟩ u =
      handlePost ⟨some "tools/call", id, n2, q, pv⟩ u ∧
    handlePost ⟨some "tools/call", id, n1, q, pv⟩ u =
      (match callTool q u with
       | Except.ok r => (200, RpcBody.success id (RpcResult.toolResult r))
       | Except.error m =>
           (500, RpcBody.failure id (-32000) (if m = "" then "Internal error" else m))) :=
  ⟨rfl, rfl⟩

/-- C5: on an upstream response whose N groups all carry a string `type`,
formatting succeeds and yields exactly one block per group, in upstream
order: each block opens with its own `"\n🎧 "` header (the upper-cased
type label), each group contributes exactly one entry per item, and the
k-th entry of a group (0-based) is numbered `k + 1` — the numbering is
computed from the position within that group alone, restarting at 1 for
each group rather than using a global counter; the `tools/call` text is
the results header followed by these blocks. -/
theorem c5_headers_and_group_local_numbering (gs : List ResultGroup)
    (h : ∀ g ∈ gs, g.type ≠ none) :
    formatBlocks gs = Except.ok (gs.map blockOf) ∧
    (gs.map blockOf).length = gs.length ∧
    (∀ b ∈ gs.map blockOf, ∃ r, b = "\n🎧 " ++ r) ∧
    (∀ g ∈ gs, (formatItems 0 (g.data.getD [])).length = (g.data.getD []).length) ∧
    (∀ g ∈ gs, ∀ k s, (formatItems 0 (g.data.getD [])).get? k = some s →
      ∃ r, s = toString (k + 1) ++ ". " ++ r) ∧
    (∀ q, q ≠ "" → gs ≠ [] →
      callTool (some q) (Except.ok ⟨some gs⟩) =
        Except.ok ⟨[⟨"text", "🔍 Results for \"" ++ q ++ "\":\n" ++
          String.intercalate "\n" (gs.map blockOf)⟩]⟩) := by
  refine ⟨formatBlocks_ok gs h, by simp, ?_, ?_, ?_, ?_⟩
  · intro b hb
    obtain ⟨g, _, rfl⟩ := List.mem_map.mp hb
    exact blockOf_header g
  · intro g _
    exact formatItems_length 0 _
  · intro g _ k s hs
    have := formatItems_numbering _ 0 k s hs
    simpa using this
  · intro q hq hne
    have ht : jsTruthy (some q) = true := by simp [jsTruthy, hq]
    have hemp : gs.isEmpty = false := by
      cases gs with
      | nil => exact absurd rfl hne
      | cons g rest => rfl
    simp [callTool, ht, hemp, formatBlocks_ok gs h, render]

/-- C5 witness: two concrete groups of two and one items; the entries of
the second group are numbered from 1 again. -/
theorem c5_numbering_witness :
    formatBlocks
      [⟨some "station", some [⟨some "BBC Radio 1", none, some "Pop", none, none, some "bbc1"⟩,
        ⟨none, some "Daily Pod", none, some "News", some "app-link", none⟩]⟩,
       ⟨some "podcast", some [⟨none, none, none, none, none, none⟩]⟩] =
      Except.ok
        (List.map blockOf
          [⟨some "station", some [⟨some "BBC Radio 1", none, some "Pop", none, none, some "bbc1"⟩,
            ⟨none, some "Daily Pod", none, some "News", some "app-link", none⟩]⟩,
           ⟨some "podcast", some [⟨none, none, none, none, none, none⟩]⟩]) ∧
    callTool (some "BBC")
      (Except.ok ⟨some
        [⟨some "station", some [⟨some "BBC Radio 1", none, some "Pop", none, none, some "bbc1"⟩,
          ⟨none, some "Daily Pod", none, some "News", some "app-link", none⟩]⟩,
         ⟨some "podcast", some [⟨none, none, none, none, none, none⟩]⟩]⟩) =
      Except.ok ⟨[⟨"text", "🔍 Results for \"BBC\":\n" ++
        String.intercalate "\n"
          (List.map blockOf
            [⟨some "station", some [⟨some "BBC Radio 1", none, some "Pop", none, none, some "bbc1"⟩,
              ⟨none, some "Daily Pod", none, some "News", some "app-link", none⟩]⟩,
             ⟨some "podcast", some [⟨none, none, none, none, none, none⟩]⟩])⟩]⟩ := by
  have h := c5_headers_and_group_local_numbering
    [⟨some "station", some [⟨some "BBC Radio 1", none, some "Pop", none, none, some "bbc1"⟩,
      ⟨none, some "Daily Pod", none, some "News", some "app-link", none⟩]⟩,
     ⟨some "podcast", some [⟨none, none, none, none, none, none⟩]⟩]
    (by decide)
  exact ⟨h.1, h.2.2.2.2.2 "BBC" (by decide) (by decide)⟩
